import Mathlib

/-!
Formal model of the document-intelligence pipeline of the `sgd-system`
repository (the AI service: classification, RAG chat, OCR extraction,
NLP analysis, and the processing orchestrator), as a shallow embedding
in Lean 4, together with theorems settling the specification claims.

Python strings are modelled as `List Char` where the claims are about
substring matching (`in`), and as Lean `String` where they are built
and concatenated.  Floats produced by the code are exact here: every
arithmetic operation involved (division, `min`, `max`) is modelled in
`ℚ`.  External collaborators (the generative model, the vector store,
the OCR engine, the document store) are oracle parameters.
-/

namespace SGD

/-! ### Python string primitives -/

/-- Python `str.lower()` on a character list (per-character lowering). -/
def pyLower (s : List Char) : List Char := s.map Char.toLower

/-- Python substring containment `needle in haystack` on character lists. -/
def strSub : List Char → List Char → Bool
  | needle, [] => needle.isEmpty
  | needle, c :: t => needle.isPrefixOf (c :: t) || strSub needle t

/-- Python `str.strip()`: drop leading and trailing whitespace. -/
def pyStrip (s : String) : String :=
  ⟨((s.data.dropWhile Char.isWhitespace).reverse.dropWhile Char.isWhitespace).reverse⟩

/-- Python slicing `s[:n]` on a string. -/
def takeChars (n : Nat) (s : String) : String := ⟨s.data.take n⟩

/-- Substring containment on Lean strings (Python `sub in s`). -/
def strContains (s sub : String) : Bool := strSub sub.data s.data

/-! ### Classification service
(`src/backend/ai-service/services/classification_service.py`) -/

/-- `ClassificationResult` (schemas.py): category, confidence, tags.
Confidence is a float in the source, modelled exactly in `ℚ`. -/
structure ClassificationResult where
  category : String
  confidence : ℚ
  tags : List String
deriving Repr, DecidableEq

/-- The rule-based classifier table of `_create_rule_based_classifier`,
verbatim, in its Python dict insertion (= iteration) order. -/
def classifierTable : List (String × List (List Char)) :=
  [ ("contract", ["contract".data, "agreement".data, "terms".data, "conditions".data,
      "liability".data, "clause".data]),
    ("invoice", ["invoice".data, "bill".data, "payment".data, "amount".data,
      "total".data, "due".data, "tax".data]),
    ("report", ["report".data, "analysis".data, "summary".data, "findings".data,
      "conclusion".data, "data".data]),
    ("correspondence", ["dear".data, "sincerely".data, "regards".data, "letter".data,
      "email".data, "message".data]),
    ("legal", ["legal".data, "law".data, "court".data, "judge".data,
      "attorney".data, "lawsuit".data, "litigation".data]),
    ("financial", ["financial".data, "budget".data, "revenue".data, "profit".data,
      "expense".data, "cost".data]),
    ("technical", ["technical".data, "specification".data, "manual".data, "guide".data,
      "procedure".data]),
    ("administrative", ["policy".data, "procedure".data, "memo".data, "notice".data,
      "announcement".data]),
    ("hr", ["employee".data, "salary".data, "benefits".data, "vacation".data,
      "performance".data, "hiring".data]),
    ("marketing", ["marketing".data, "campaign".data, "promotion".data, "advertising".data,
      "brand".data]) ]

/-- `score = sum(1 for keyword in keywords if keyword in text)`. -/
def keywordScore (text : List Char) (keywords : List (List Char)) : Nat :=
  keywords.countP (fun k => strSub k text)

/-- The `scores` dict of `_rule_based_classify`, with each category's
keyword list carried along (the source recovers it by dict lookup on the
category name; names are distinct, so this is the same data). -/
def scoredTable (text : List Char) : List (String × List (List Char) × Nat) :=
  classifierTable.map (fun row => (row.1, row.2, keywordScore text row.2))

/-- `max(scores.values())` (0 on the empty list; the table is nonempty). -/
def maxScoreValue (text : List Char) : Nat :=
  (scoredTable text).foldr (fun r m => max r.2.2 m) 0

/-- `max(scores, key=scores.get)`: Python `max` keeps the current element
unless the next is strictly greater, so ties go to the first element in
iteration order. -/
def pickBestRow : List (String × List (List Char) × Nat) → String × List (List Char) × Nat
  | [] => ("other", [], 0)
  | x :: xs => xs.foldl (fun c n => if c.2.2 < n.2.2 then n else c) x

/-- `_rule_based_classify`. -/
def rule_based_classify (text : List Char) : String × ℚ :=
  if maxScoreValue text = 0 then ("other", 1/10)
  else
    let best := pickBestRow (scoredTable text)
    let confidence := min ((best.2.2 : ℚ) / (best.2.1.length : ℚ)) 1
    (best.1, max confidence (1/10))

/-- The tag table of `_extract_tags`, verbatim, in dict order. -/
def tagTable : List (String × List (List Char)) :=
  [ ("urgent", ["urgent".data, "asap".data, "immediate".data, "priority".data]),
    ("confidential", ["confidential".data, "private".data, "restricted".data,
      "sensitive".data]),
    ("draft", ["draft".data, "preliminary".data, "version".data, "v1".data, "v2".data]),
    ("final", ["final".data, "approved".data, "completed".data, "signed".data]),
    ("expired", ["expired".data, "overdue".data, "past due".data]),
    ("pending", ["pending".data, "awaiting".data, "in progress".data]) ]

/-- `_extract_tags`: a tag is emitted when any of its keywords occurs in
the text; the resulting list is truncated to the first 5 (`tags[:5]`). -/
def extract_tags (text : List Char) : List String :=
  ((tagTable.filter (fun row => row.2.any (fun k => strSub k text))).map (·.1)).take 5

/-- The combined text `f"{title} {text}".lower()` of `classify_document`. -/
def combinedText (text title : List Char) : List Char :=
  pyLower (title ++ " ".data ++ text)

/-- `classify_document` (success path): rule-based category and confidence
on the lower-cased title-plus-text, plus tags extracted from the same text. -/
def classify_document (text title : List Char) : ClassificationResult :=
  let combined_text := combinedText text title
  let rc := rule_based_classify combined_text
  let tags := extract_tags combined_text
  ⟨rc.1, rc.2, tags⟩

/-- The result returned on the `except` path of `classify_document`
(lines 52-58 of classification_service.py): any internal failure is
absorbed and this fixed fallback result is returned. -/
def classify_document_fallback : ClassificationResult := ⟨"other", 1/10, []⟩

/-! ### RAG service (`src/backend/ai-service/services/rag_service.py`) -/

/-- A document object as stored in the vector store (`index_document`
writes these fields; `_search_relevant_documents` retrieves them). -/
structure RagDoc where
  document_id : Nat
  title : String
  content : String
  summary : String
  category : String
  tags : List String
deriving Repr, DecidableEq

/-- One entry of the `sources` list built by `chat`. -/
structure ChatSource where
  document_id : Nat
  title : String
  excerpt : String
  relevance : ℚ
deriving Repr, DecidableEq

/-- `ChatResponse` (the fields the core computes; `conversation_id` and
`timestamp` are fresh environment-generated values and are not modelled). -/
structure ChatResponse where
  response : String
  sources : List ChatSource
  confidence : ℚ
deriving Repr, DecidableEq

/-- `_search_relevant_documents`: the vector-store query itself is the
environment, passed in as an `Except` value; an exception inside the
search is caught and yields the empty list. -/
def search_relevant_documents (result : Except String (List RagDoc)) : List RagDoc :=
  match result with
  | .ok docs => docs
  | .error _ => []

/-- `_build_context`: numbered sections, preferring the stored summary and
falling back to the first 500 characters of content; the literal
"No relevant documents found." when nothing was retrieved. -/
def build_context (documents : List RagDoc) : String :=
  if documents.isEmpty then "No relevant documents found."
  else
    let context_parts := documents.enum.map (fun p =>
      let text := if p.2.summary = "" then takeChars 500 p.2.content else p.2.summary
      "Document " ++ Nat.repr (p.1 + 1) ++ " - " ++ p.2.title ++ ":\n" ++ text)
    match context_parts with
    | [] => ""
    | x :: xs => xs.foldl (fun a b => a ++ "\n\n" ++ b) x

/-- The fixed user prompt of `_generate_response`. -/
def ragUserPrompt (query context : String) : String :=
  "Context from documents:\n" ++ context ++ "\n\nQuestion: " ++ query ++
    "\n\nPlease provide a helpful answer based on the document context above."

/-- `_generate_response`: the generative model call is the environment
(`model` maps the built user prompt to a completion or a failure); its
output is stripped; any failure is caught and replaced by the fixed
apologetic answer. -/
def generate_response (model : String → Except String String)
    (query context : String) : String :=
  match model (ragUserPrompt query context) with
  | .ok content => pyStrip content
  | .error _ =>
      "I apologize, but I encountered an error while generating a response. Please try again."

/-- `chat`: retrieval, context building, generation, the retrieval-count
confidence heuristic, and the sources list with its fixed placeholder
relevance 0.8. -/
def chat (searchResult : Except String (List RagDoc))
    (model : String → Except String String)
    (query : String) (context_limit : Nat) : ChatResponse :=
  let relevant_docs := search_relevant_documents searchResult
  let context := build_context relevant_docs
  let response_text := generate_response model query context
  let confidence := min ((relevant_docs.length : ℚ) / (context_limit : ℚ)) 1
  let sources := relevant_docs.map (fun doc =>
    { document_id := doc.document_id, title := doc.title,
      excerpt := takeChars 200 doc.content ++ "...", relevance := (8/10 : ℚ) })
  ⟨response_text, sources, confidence⟩

/-! ### NLP service (`src/backend/ai-service/services/nlp_service.py`) -/

/-- A spaCy token, with the attributes `_extract_keywords` reads. -/
structure Token where
  lemma_ : String
  pos_ : String
  is_stop : Bool
  is_punct : Bool
  text : String
deriving Repr, DecidableEq

/-- A recognized entity span (`doc.ents`), with the attributes
`_extract_entities` reads. -/
structure Ent where
  label_ : String
  text : String
deriving Repr, DecidableEq

/-- Per-character lowering on a Lean string (Python `str.lower()`). -/
def strLower (s : String) : String := ⟨pyLower s.data⟩

/-- The `filtered_tokens` comprehension of `_extract_keywords`:
nouns/proper nouns/adjectives, not stop words, not punctuation, longer
than 2 characters; lower-cased lemmas. -/
def filtered_tokens (doc : List Token) : List String :=
  (doc.filter (fun t =>
      (t.pos_ == "NOUN" || t.pos_ == "PROPN" || t.pos_ == "ADJ") &&
      !t.is_stop && !t.is_punct && decide (2 < t.text.length))).map
    (fun t => strLower t.lemma_)

/-- The distinct elements of a list in first-seen order (the key set of a
Python `Counter`, which is insertion-ordered). -/
def firstOccurrences (l : List String) : List String :=
  l.foldl (fun acc s => if s ∈ acc then acc else acc ++ [s]) []

/-- `Counter(l).items()`: each distinct element with its count, in
first-seen order. -/
def counterItems (l : List String) : List (String × Nat) :=
  (firstOccurrences l).map (fun s => (s, l.count s))

/-- `Counter.most_common(n)`: items stably sorted by count descending
(ties keep insertion order), truncated to `n`. -/
def most_common (items : List (String × Nat)) (n : Nat) : List (String × Nat) :=
  (items.mergeSort (fun a b => b.2 ≤ a.2)).take n

/-- `_extract_keywords` (the orchestrating `analyze_text` uses the default
`limit = 10`). -/
def extract_keywords (doc : List Token) (limit : Nat := 10) : List String :=
  (most_common (counterItems (filtered_tokens doc)) limit).map (·.1)

/-- Append `txt` to the list held at key `label` of an insertion-ordered
association list unless already present; a missing key is appended at the
end holding `[txt]`.  This is the loop body of `_extract_entities` acting
on the Python dict `entities`. -/
def updateAssoc : List (String × List String) → String → String → List (String × List String)
  | [], label, txt => [(label, [txt])]
  | (k, vs) :: rest, label, txt =>
    if k = label then (k, if txt ∈ vs then vs else vs ++ [txt]) :: rest
    else (k, vs) :: updateAssoc rest label txt

/-- `_extract_entities`: group entity spans by type, stripping each
surface text and de-duplicating exact matches within a type. -/
def extract_entities (ents : List Ent) : List (String × List String) :=
  ents.foldl (fun acc e => updateAssoc acc e.label_ (pyStrip e.text)) []

/-- Insert unless present (one step of first-seen de-duplication). -/
def insertNew (vs : List String) (t : String) : List String :=
  if t ∈ vs then vs else vs ++ [t]

/-- First-seen de-duplication of a stream of strings into an accumulator:
the specification-side description of what `_extract_entities` does to
the surface texts of a single entity type. -/
def insertAll (vs : List String) (ts : List String) : List String :=
  ts.foldl insertNew vs

/-! ### OCR service (`src/backend/ai-service/services/ocr_service.py`) -/

/-- One PDF page: `text` is what `page.get_text()` returns (the direct
text layer), `ocrRaw` is what the OCR engine returns on the page rendered
to an image (the `pytesseract.image_to_string` output, an environment
value). -/
structure PdfPage where
  text : String
  ocrRaw : String
deriving Repr, DecidableEq

/-- `_ocr_image`: the engine output (dual-language `eng+spa` recognition,
performed by the environment) is stripped before being returned. -/
def ocr_image (raw : String) : String := pyStrip raw

/-- The page loop of `_extract_from_pdf`: accumulate per-page sections in
order, substituting OCR output (with a `(OCR)`-marked header) exactly on
pages whose direct text is empty or whitespace-only. -/
def pdfPagesLoop (pages : List PdfPage) (page_num : Nat) (text : String) : String :=
  match pages with
  | [] => text
  | page :: rest =>
    let page_text := page.text
    if pyStrip page_text = "" then
      let ocr_text := ocr_image page.ocrRaw
      pdfPagesLoop rest (page_num + 1)
        (text ++ "\n--- Page " ++ Nat.repr (page_num + 1) ++ " (OCR) ---\n" ++ ocr_text ++ "\n")
    else
      pdfPagesLoop rest (page_num + 1)
        (text ++ "\n--- Page " ++ Nat.repr (page_num + 1) ++ " ---\n" ++ page_text ++ "\n")

/-- `_extract_from_pdf`: run the page loop from page 0 with an empty
accumulator and strip the final result. -/
def extract_from_pdf (pages : List PdfPage) : String :=
  pyStrip (pdfPagesLoop pages 0 "")

/-- The section `_extract_from_pdf` emits for the page at index `idx`
(0-based; headers are 1-based): the specification-side per-page decision
function. -/
def pageSection (idx : Nat) (page : PdfPage) : String :=
  if pyStrip page.text = "" then
    "\n--- Page " ++ Nat.repr (idx + 1) ++ " (OCR) ---\n" ++ ocr_image page.ocrRaw ++ "\n"
  else
    "\n--- Page " ++ Nat.repr (idx + 1) ++ " ---\n" ++ page.text ++ "\n"

/-- Concatenation of a list of sections (specification side: the output
of `_extract_from_pdf` before the final strip is the concatenation of the
per-page sections in page order). -/
def concatSections (l : List String) : String := l.foldr (· ++ ·) ""

/-! ### Summarization (`nlp_service.py`, `generate_summary`) -/

/-- The fixed user prompt of `generate_summary`. -/
def summaryPrompt (text : String) : String :=
  "Please summarize the following text:\n\n" ++ text

/-- `generate_summary`: empty/whitespace-only input short-circuits to an
empty summary; otherwise the input is truncated to 3000 characters (with
an ellipsis marker) and sent to the generative model (the environment
parameter `model`); a model failure is caught and replaced by the fixed
failure string.  The `Bool` component records whether the generative
model was invoked. -/
def generate_summary (model : String → Except String String) (text : String) :
    String × Bool :=
  if pyStrip text = "" then ("", false)
  else
    let t := if 3000 < text.length then takeChars 3000 text ++ "..." else text
    match model (summaryPrompt t) with
    | .ok content => (pyStrip content, true)
    | .error _ => ("Summary generation failed", true)

/-! ### Pipeline orchestrator (`src/backend/ai-service/main.py`,
`process_document`) -/

/-- The externally visible effects of one successful `process_document`
run, in program order. -/
inductive PipelineEffect where
  | fetchDocument
  | fetchFile
  | extractText
  | analyzeText
  | classifyDocument
  | generateSummary
  | updateDocument
  | indexDocument
deriving Repr, DecidableEq, BEq

/-- The effect trace of the success path of `process_document`
(main.py lines 96-158): fetch the document record, download the file,
extract text, NLP analysis, classification, summary, then the `PUT` that
persists the result to the external document store (lines 144-148), and
only then the vector-store indexing via `rag_service.index_document`
(lines 151-158). -/
def processDocumentTrace : List PipelineEffect :=
  [ .fetchDocument, .fetchFile, .extractText, .analyzeText,
    .classifyDocument, .generateSummary, .updateDocument, .indexDocument ]

/-! ### Theorems -/

/-- All whitespace in, empty string out of `pyStrip`. -/
lemma pyStrip_eq_empty_of_all_whitespace (s : String)
    (h : ∀ c ∈ s.data, c.isWhitespace) : pyStrip s = "" := by
  have hd : s.data.dropWhile Char.isWhitespace = [] :=
    List.dropWhile_eq_nil_iff.mpr h
  simp [pyStrip, hd]

/-- **C2** (counterexample): it is not the case that the vector-store
indexing of `process_document` happens before the persistence of the
result to the external document store: in the success trace the
`updateDocument` effect precedes the `indexDocument` effect. -/
theorem index_write_not_before_persist :
    ¬ (processDocumentTrace.indexOf PipelineEffect.indexDocument <
        processDocumentTrace.indexOf PipelineEffect.updateDocument) := by
  decide

/-- **C2** (amended): in every successful `process_document` run both the
persistence of the result and the vector-store indexing occur, and the
persistence (the `PUT` of extracted text, summary, entities,
classification and status "processed") happens strictly before the
vector-store write. -/
theorem persist_before_index_write :
    processDocumentTrace.contains PipelineEffect.updateDocument = true ∧
    processDocumentTrace.contains PipelineEffect.indexDocument = true ∧
    processDocumentTrace.indexOf PipelineEffect.updateDocument <
      processDocumentTrace.indexOf PipelineEffect.indexDocument := by
  decide

/-- **C4**: on every path of `classify_document` — zero matches, at least
one match (both covered by the arbitrary `text`/`title` quantification),
and the internal-failure fallback — the returned confidence lies in
[0.1, 1.0]. -/
theorem classify_confidence_in_range (text title : List Char) :
    (1/10 ≤ (classify_document text title).confidence ∧
      (classify_document text title).confidence ≤ 1) ∧
    (1/10 ≤ classify_document_fallback.confidence ∧
      classify_document_fallback.confidence ≤ 1) := by
  refine ⟨?_, by norm_num [classify_document_fallback]⟩
  show 1/10 ≤ (rule_based_classify (combinedText text title)).2 ∧
    (rule_based_classify (combinedText text title)).2 ≤ 1
  unfold rule_based_classify
  split
  · norm_num
  · refine ⟨le_max_right _ _, max_le (min_le_right _ _) (by norm_num)⟩

/-- **C8**: summarizing the empty string yields the empty string and the
generative model is never invoked. -/
theorem summarize_empty (model : String → Except String String) :
    generate_summary model "" = ("", false) := rfl

/-- **C10**: summarizing any whitespace-only input yields the empty
string and the generative model is never invoked: the guard tests the
stripped text. -/
theorem summarize_whitespace_only (model : String → Except String String)
    (text : String) (h : ∀ c ∈ text.data, c.isWhitespace) :
    generate_summary model text = ("", false) := by
  unfold generate_summary
  rw [pyStrip_eq_empty_of_all_whitespace text h]
  simp

/-- **C10** witness: a concrete whitespace-only (non-empty) input. -/
theorem summarize_whitespace_only_witness :
    generate_summary (fun p => Except.ok p) " \t\n " = ("", false) :=
  summarize_whitespace_only (fun p => Except.ok p) " \t\n " (by decide)

/-- **C5**: the chat confidence always equals
min(retrieved_count / context_limit, 1); with zero retrieved documents it
is 0 and the context handed to generation is exactly the literal
"No relevant documents found.". -/
theorem chat_confidence_spec (searchResult : Except String (List RagDoc))
    (model : String → Except String String) (query : String) (limit : Nat) :
    (chat searchResult model query limit).confidence =
      min (((search_relevant_documents searchResult).length : ℚ) / (limit : ℚ)) 1 ∧
    (search_relevant_documents searchResult = [] →
      (chat searchResult model query limit).confidence = 0 ∧
      (chat searchResult model query limit).response =
        generate_response model query "No relevant documents found.") := by
  refine ⟨rfl, fun h => ?_⟩
  constructor
  · show min (((search_relevant_documents searchResult).length : ℚ) / (limit : ℚ)) 1 = 0
    rw [h]
    norm_num
  · show generate_response model query
        (build_context (search_relevant_documents searchResult)) =
      generate_response model query "No relevant documents found."
    rw [h]
    rfl

/-- **C5** witness: an empty retrieval with limit 5. -/
theorem chat_confidence_spec_witness :
    (chat (Except.ok ([] : List RagDoc)) (fun p => Except.ok p) "q" 5).confidence = 0 ∧
    (chat (Except.ok ([] : List RagDoc)) (fun p => Except.ok p) "q" 5).response =
      generate_response (fun p => Except.ok p) "q" "No relevant documents found." :=
  (chat_confidence_spec (Except.ok ([] : List RagDoc)) (fun p => Except.ok p) "q" 5).2 rfl

/-- **C6**: failure absorption in the chat flow.  A generation failure
(the model oracle returns an error) yields the fixed apologetic answer
instead of propagating; a retrieval failure yields an empty retrieved
set, so the chat still returns a structured answer whose confidence
degrades to 0 and whose context is the no-documents literal. -/
theorem chat_failure_policy :
    (∀ (searchResult : Except String (List RagDoc)) (query : String)
        (limit : Nat) (e : String),
      (chat searchResult (fun _ => Except.error e) query limit).response =
        "I apologize, but I encountered an error while generating a response. Please try again.") ∧
    (∀ (e : String) (model : String → Except String String)
        (query : String) (limit : Nat),
      search_relevant_documents (Except.error e) = [] ∧
      (chat (Except.error e) model query limit).confidence = 0 ∧
      (chat (Except.error e) model query limit).response =
        generate_response model query "No relevant documents found." ∧
      (chat (Except.error e) model query limit).sources = []) := by
  constructor
  · intro searchResult query limit e
    rfl
  · intro e model query limit
    refine ⟨rfl, ?_, rfl, rfl⟩
    show min (((search_relevant_documents (Except.error e)).length : ℚ) / (limit : ℚ)) 1 = 0
    show min (((List.length ([] : List RagDoc)) : ℚ) / (limit : ℚ)) 1 = 0
    norm_num

/-- The accumulator form of the `_extract_from_pdf` page loop: starting
at page index `n` with accumulated text `t`, the loop appends exactly the
per-page sections of the remaining pages, in order. -/
lemma pdfPagesLoop_sections (pages : List PdfPage) :
    ∀ (n : Nat) (t : String),
      pdfPagesLoop pages n t =
        t ++ concatSections ((pages.enumFrom n).map (fun p => pageSection p.1 p.2)) := by
  induction pages with
  | nil => intro n t; simp [pdfPagesLoop, concatSections]
  | cons page rest ih =>
    intro n t
    show pdfPagesLoop (page :: rest) n t =
      t ++ (pageSection n page ++
        concatSections ((rest.enumFrom (n + 1)).map (fun p => pageSection p.1 p.2)))
    by_cases hp : pyStrip page.text = ""
    · simp only [pdfPagesLoop]
      rw [if_pos hp, ih]
      simp [pageSection, hp, String.append_assoc]
    · simp only [pdfPagesLoop]
      rw [if_neg hp, ih]
      simp [pageSection, hp, String.append_assoc]

/-- **C7**: `_extract_from_pdf` processes pages in order, and the section
it emits for each page is the page's direct text under a plain
"Page N" header when that text is not whitespace-only, and the OCR
output under a "Page N (OCR)" header otherwise; concretely, for a PDF
whose page 2 alone has a whitespace-only text layer, the output carries
an OCR-marked non-blank section for page 2 and plain sections for pages
1 and 3. -/
theorem extract_from_pdf_per_page :
    (∀ pages : List PdfPage,
      extract_from_pdf pages =
        pyStrip (concatSections (pages.enum.map (fun p => pageSection p.1 p.2)))) ∧
    (strContains
        (extract_from_pdf [⟨"First page text", ""⟩, ⟨"   ", "Recovered scanned text"⟩,
          ⟨"Third page text", ""⟩]) "--- Page 2 (OCR) ---" = true ∧
      strContains
        (extract_from_pdf [⟨"First page text", ""⟩, ⟨"   ", "Recovered scanned text"⟩,
          ⟨"Third page text", ""⟩]) "Recovered scanned text" = true ∧
      strContains
        (extract_from_pdf [⟨"First page text", ""⟩, ⟨"   ", "Recovered scanned text"⟩,
          ⟨"Third page text", ""⟩]) "--- Page 2 ---" = false ∧
      strContains
        (extract_from_pdf [⟨"First page text", ""⟩, ⟨"   ", "Recovered scanned text"⟩,
          ⟨"Third page text", ""⟩]) "--- Page 1 ---" = true ∧
      strContains
        (extract_from_pdf [⟨"First page text", ""⟩, ⟨"   ", "Recovered scanned text"⟩,
          ⟨"Third page text", ""⟩]) "--- Page 3 ---" = true) := by
  constructor
  · intro pages
    unfold extract_from_pdf
    rw [pdfPagesLoop_sections pages 0 "", String.empty_append]
    rfl
  · refine ⟨?_, ?_, ?_, ?_, ?_⟩ <;> decide

/-- Folding `max` over a list of zero scores gives zero. -/
lemma foldr_max_zero (l : List (String × List (List Char) × Nat))
    (h : ∀ r ∈ l, r.2.2 = 0) :
    l.foldr (fun r m => max r.2.2 m) 0 = 0 := by
  induction l with
  | nil => rfl
  | cons x xs ih =>
    rw [List.foldr_cons, h x (List.mem_cons_self x xs),
      ih fun r hr => h r (List.mem_cons_of_mem x hr)]
    rfl

/-- If no category keyword occurs in the text, every category scores 0. -/
lemma maxScoreValue_zero (text : List Char)
    (h : ∀ row ∈ classifierTable, ∀ k ∈ row.2, strSub k text = false) :
    maxScoreValue text = 0 := by
  apply foldr_max_zero
  intro r hr
  obtain ⟨row, hrow, rfl⟩ := List.mem_map.mp hr
  show keywordScore text row.2 = 0
  unfold keywordScore
  rw [List.countP_eq_zero]
  intro k hk
  simp [h row hrow k hk]

/-- **C1** (counterexample): the text "urgent" (with empty title) matches
no category keyword, yet `classify_document` does not return an empty tag
list — it returns the tag "urgent". -/
theorem classify_no_category_match_counterexample :
    (∀ row ∈ classifierTable, ∀ k ∈ row.2,
      strSub k (combinedText "urgent".data "".data) = false) ∧
    classify_document "urgent".data "".data ≠ ⟨"other", 1/10, []⟩ := by
  refine ⟨by decide, fun hc => ?_⟩
  exact absurd (congrArg ClassificationResult.tags hc) (by decide)

/-- **C1** (amended): when no category keyword occurs in the lower-cased
title-plus-text, `classify_document` returns category "other" and
confidence 0.1; the tag list, however, is computed independently from
the tag table, and is empty exactly when no tag keyword occurs either. -/
theorem classify_no_category_match (text title : List Char)
    (h : ∀ row ∈ classifierTable, ∀ k ∈ row.2,
      strSub k (combinedText text title) = false) :
    (classify_document text title).category = "other" ∧
    (classify_document text title).confidence = 1/10 ∧
    ((classify_document text title).tags = [] ↔
      ∀ row ∈ tagTable, ∀ k ∈ row.2, strSub k (combinedText text title) = false) := by
  have h0 : maxScoreValue (combinedText text title) = 0 := maxScoreValue_zero _ h
  refine ⟨?_, ?_, ?_⟩
  · show (rule_based_classify (combinedText text title)).1 = "other"
    unfold rule_based_classify
    rw [if_pos h0]
  · show (rule_based_classify (combinedText text title)).2 = 1/10
    unfold rule_based_classify
    rw [if_pos h0]
  · show extract_tags (combinedText text title) = [] ↔ _
    unfold extract_tags
    simp [List.take_eq_nil_iff, List.filter_eq_nil_iff, List.any_eq_false]

/-- **C1** witness: the amended statement at the concrete input "urgent". -/
theorem classify_no_category_match_witness :
    (classify_document "urgent".data "".data).category = "other" ∧
    (classify_document "urgent".data "".data).confidence = 1/10 ∧
    ((classify_document "urgent".data "".data).tags = [] ↔
      ∀ row ∈ tagTable, ∀ k ∈ row.2,
        strSub k (combinedText "urgent".data "".data) = false) :=
  classify_no_category_match "urgent".data "".data (by decide)

/-- Python's `max(..., key=f)` on a nonempty list (a left fold that keeps
the current element unless the next has a strictly greater key) returns
the first element whose key equals the maximum of the keys. -/
lemma pick_first_max {α : Type} (f : α → Nat) :
    ∀ (xs : List α) (x : α) (M : Nat),
      M = (x :: xs).foldr (fun a m => max (f a) m) 0 →
      (x :: xs).find? (fun r => f r == M) =
        some (xs.foldl (fun c n => if f c < f n then n else c) x) := by
  intro xs
  induction xs with
  | nil =>
    intro x M hM
    subst hM
    simp [List.find?]
  | cons y ys ih =>
    intro x M hM
    rw [List.foldl_cons]
    by_cases hxy : f x < f y
    · have h1 : f x < M := by
        subst hM; simp only [List.foldr_cons]; omega
      rw [List.find?_cons_of_neg _ (by simp; omega)]
      rw [if_pos hxy]
      refine ih y M ?_
      subst hM
      simp only [List.foldr_cons]
      omega
    · have hyx : f y ≤ f x := Nat.le_of_not_lt hxy
      have hM' : M = (x :: ys).foldr (fun a m => max (f a) m) 0 := by
        subst hM
        simp only [List.foldr_cons]
        omega
      rw [if_neg hxy]
      by_cases hpx : f x = M
      · rw [List.find?_cons_of_pos _ (by simp [hpx])]
        exact (List.find?_cons_of_pos _ (by simp [hpx])).symm.trans (ih x M hM')
      · have hfx_le : f x ≤ M := by rw [hM']; simp only [List.foldr_cons]; omega
        have hfx_lt : f x < M := lt_of_le_of_ne hfx_le hpx
        have hfy_lt : f y < M := lt_of_le_of_lt hyx hfx_lt
        rw [List.find?_cons_of_neg _ (by simp; omega),
          List.find?_cons_of_neg _ (by simp; omega)]
        have hih := ih x M hM'
        rw [List.find?_cons_of_neg _ (by simp; omega)] at hih
        exact hih

/-- **C3**: when at least one category keyword matches, the returned
category is the first one in the fixed table iteration order (contract,
invoice, report, correspondence, legal, financial, technical,
administrative, hr, marketing) whose match count equals the maximal
match count, and the confidence is
max(min(score / keyword-list-length, 1), 0.1). -/
theorem classify_best_category (text title : List Char)
    (h : maxScoreValue (combinedText text title) ≠ 0) :
    ∃ row,
      (scoredTable (combinedText text title)).find?
          (fun r => r.2.2 == maxScoreValue (combinedText text title)) = some row ∧
      (classify_document text title).category = row.1 ∧
      (classify_document text title).confidence =
        max (min ((row.2.2 : ℚ) / (row.2.1.length : ℚ)) 1) (1/10) := by
  obtain ⟨x, xs, hx⟩ :
      ∃ x xs, scoredTable (combinedText text title) = x :: xs := ⟨_, _, rfl⟩
  refine ⟨xs.foldl (fun c n => if c.2.2 < n.2.2 then n else c) x, ?_, ?_, ?_⟩
  · rw [hx]
    refine pick_first_max (fun r => r.2.2) xs x _ ?_
    rw [← hx]
    rfl
  · show (rule_based_classify (combinedText text title)).1 = _
    unfold rule_based_classify
    rw [if_neg h]
    show (pickBestRow (scoredTable (combinedText text title))).1 = _
    rw [hx]
    rfl
  · show (rule_based_classify (combinedText text title)).2 = _
    unfold rule_based_classify
    rw [if_neg h]
    show max (min (((pickBestRow (scoredTable (combinedText text title))).2.2 : ℚ) /
        (((pickBestRow (scoredTable (combinedText text title))).2.1.length : Nat) : ℚ)) 1)
        (1/10) = _
    rw [hx]
    rfl

/-- **C3** witness: a concrete text where "invoice" wins with 5 of its 7
keywords matched. -/
theorem classify_best_category_witness :
    ∃ row,
      (scoredTable (combinedText "invoice amount total due payment".data "".data)).find?
          (fun r => r.2.2 ==
            maxScoreValue (combinedText "invoice amount total due payment".data "".data)) =
        some row ∧
      (classify_document "invoice amount total due payment".data "".data).category = row.1 ∧
      (classify_document "invoice amount total due payment".data "".data).confidence =
        max (min ((row.2.2 : ℚ) / (row.2.1.length : ℚ)) 1) (1/10) :=
  classify_best_category "invoice amount total due payment".data "".data (by decide)

/-- Looking up the updated key after one `_extract_entities` step: the
stripped text has been inserted (if absent) at that key. -/
lemma lookup_updateAssoc_self (acc : List (String × List String)) (l t : String) :
    (updateAssoc acc l t).lookup l = some (insertNew ((acc.lookup l).getD []) t) := by
  induction acc with
  | nil => simp [updateAssoc, insertNew, List.lookup]
  | cons p rest ih =>
    obtain ⟨k, vs⟩ := p
    by_cases hk : k = l
    · subst hk
      simp [updateAssoc, List.lookup_cons, insertNew]
    · have hb : (l == k) = false := by simp [Ne.symm hk]
      simp [updateAssoc, hk, List.lookup_cons, hb, ih]

/-- One `_extract_entities` step leaves every other key unchanged. -/
lemma lookup_updateAssoc_ne (acc : List (String × List String)) (l t label : String)
    (h : label ≠ l) :
    (updateAssoc acc l t).lookup label = acc.lookup label := by
  have hb : (label == l) = false := by simp [h]
  induction acc with
  | nil => simp [updateAssoc, List.lookup, hb]
  | cons p rest ih =>
    obtain ⟨k, vs⟩ := p
    by_cases hk : k = l
    · subst hk
      simp [updateAssoc, List.lookup_cons, hb, ih]
    · simp [updateAssoc, hk, List.lookup_cons, ih]

/-- The `_extract_entities` fold, viewed one entity type at a time: the
value at key `label` is the first-seen de-duplication of the stripped
surface texts of the entities with that label, continued from whatever
the accumulator already holds at that key. -/
lemma extract_entities_fold (label : String) :
    ∀ (ents : List Ent) (acc : List (String × List String)),
      ((ents.foldl (fun a e => updateAssoc a e.label_ (pyStrip e.text)) acc).lookup label) =
        (match acc.lookup label,
            (ents.filter (fun e => e.label_ == label)).map (fun e => pyStrip e.text) with
          | some vs, ts => some (insertAll vs ts)
          | none, [] => none
          | none, t :: ts => some (insertAll [t] ts)) := by
  intro ents
  induction ents with
  | nil =>
    intro acc
    cases h : acc.lookup label <;> simp [insertAll, h]
  | cons e rest ih =>
    intro acc
    rw [List.foldl_cons]
    by_cases he : e.label_ = label
    · subst he
      rw [ih, lookup_updateAssoc_self]
      simp only [List.filter_cons, beq_self_eq_true, if_pos, List.map_cons]
      cases hl : acc.lookup e.label_ <;> simp [insertAll, insertNew, hl]
    · have hb : (e.label_ == label) = false := by simp [he]
      rw [ih, lookup_updateAssoc_ne _ _ _ _ (Ne.symm he)]
      simp [List.filter_cons, hb]

/-- First-seen de-duplication preserves `Nodup` of the accumulator. -/
lemma insertAll_nodup : ∀ (ts vs : List String), vs.Nodup → (insertAll vs ts).Nodup := by
  intro ts
  induction ts with
  | nil => intro vs h; exact h
  | cons t ts ih =>
    intro vs h
    show (insertAll (insertNew vs t) ts).Nodup
    apply ih
    by_cases ht : t ∈ vs
    · simpa [insertNew, ht] using h
    · simp [insertNew, ht, List.nodup_append, h, List.disjoint_singleton]

/-- **C9**: the keyword list produced by `analyze_text` (which calls
`_extract_keywords` with its default limit 10) has length at most 10,
and within each entity type the list built by `_extract_entities` is
exactly the first-seen de-duplication of that type's stripped surface
strings — in particular it has no duplicates. -/
theorem analyze_keyword_entity_invariants (doc : List Token) (ents : List Ent)
    (label : String) (vs : List String)
    (h : (extract_entities ents).lookup label = some vs) :
    (extract_keywords doc).length ≤ 10 ∧
    vs = insertAll []
      ((ents.filter (fun e => e.label_ == label)).map (fun e => pyStrip e.text)) ∧
    vs.Nodup := by
  have hk : (extract_keywords doc).length ≤ 10 := by
    unfold extract_keywords most_common
    rw [List.length_map, List.length_take]
    exact min_le_left _ _
  have he := extract_entities_fold label ents []
  unfold extract_entities at h
  rw [h, List.lookup_nil] at he
  have hv : vs = insertAll []
      ((ents.filter (fun e => e.label_ == label)).map (fun e => pyStrip e.text)) := by
    revert he
    cases (ents.filter (fun e => e.label_ == label)).map (fun e => pyStrip e.text) with
    | nil => intro he; exact absurd he (by simp)
    | cons t ts =>
      intro he
      have : vs = insertAll [t] ts := by
        simpa using he
      rw [this]
      simp [insertAll, insertNew]
  refine ⟨hk, hv, ?_⟩
  rw [hv]
  exact insertAll_nodup _ [] List.nodup_nil

/-- **C9** witness: concrete tokens and entities; the "PERSON" entity
list de-duplicates "Alice" (seen twice, once with surrounding
whitespace) and keeps first-seen order. -/
theorem analyze_keyword_entity_invariants_witness :
    (extract_keywords [⟨"report", "NOUN", false, false, "reports"⟩]).length ≤ 10 ∧
    ["Alice", "Bob"] = insertAll []
      ((([⟨"PERSON", " Alice "⟩, ⟨"PERSON", "Bob"⟩, ⟨"PERSON", "Alice"⟩,
          ⟨"ORG", "ACME"⟩] : List Ent).filter
            (fun e => e.label_ == "PERSON")).map (fun e => pyStrip e.text)) ∧
    (["Alice", "Bob"] : List String).Nodup :=
  analyze_keyword_entity_invariants
    [⟨"report", "NOUN", false, false, "reports"⟩]
    [⟨"PERSON", " Alice "⟩, ⟨"PERSON", "Bob"⟩, ⟨"PERSON", "Alice"⟩, ⟨"ORG", "ACME"⟩]
    "PERSON" ["Alice", "Bob"] (by decide)

end SGD
